import Mathlib

/-!
Verification of the Microsoft-Graph-MCP repository core against its
natural-language specification.

The development shallowly embeds the two core source files:
  * `graph_mcp/config.py` (Settings.get_auth_config, Settings.get_client_secret,
    Settings.is_read_only_mode), and
  * `graph_mcp/services/graph_service.py` (GraphService.execute_command together
    with its helpers `_get_client_secret` and `_device_code_callback`).

Python optional strings are modelled as `Option String`; Python truthiness of a
string (`None` and the empty string are falsy) is `strTruthy`; Python `a or b`
on such values is `pyOr`.  The stateful service is modelled by explicit state
passing over `SvcState`; the external world (credential constructors, token
acquisition, the HTTP layer) is an oracle `Env` quantified over in the
theorems, and exceptions are modelled with `Except String`, the top-level
`try/except` of `execute_command` being `pyCatch`.  Observable side effects
(credential creation, the device-code clear, the token request, an HTTP send)
are recorded in an event trace.
-/

namespace GraphMcp

/-! ### Python string truthiness -/

/-- Truthiness of a Python `Optional[str]`: `None` and `""` are falsy. -/
def strTruthy : Option String → Bool
  | none => false
  | some s => !(s == "")

/-- Python `a or b` on optional strings: `a` when truthy, else `b`. -/
def pyOr (a b : Option String) : Option String :=
  if strTruthy a then a else b

/-! ### Embedding of `graph_mcp/config.py` -/

/-- The fields of `Settings` that `get_auth_config`, `get_client_secret` and
`is_read_only_mode` read (config.py lines 48-65). -/
structure Settings where
  graph_tenant_id : Option String
  graph_client_id : String
  custom_client_id : Option String
  custom_tenant_id : Option String
  custom_client_secret : Option String
  use_app_reg_clientid : Option String
  tenantid : Option String
  client_secret : Option String
  graph_client_secret : Option String
deriving DecidableEq

/-- The dictionary returned by `Settings.get_auth_config` (config.py 126-152).
`mode` is the Python string "custom" or "default"; `auth_mode` is
"client_secret" or "device_code". -/
structure AuthConfig where
  mode : String
  client_id : String
  tenant_id : String
  auth_mode : String
  scopes : List String
deriving DecidableEq

/-- Embedding of `Settings.get_auth_config` (config.py lines 126-152). -/
def get_auth_config (s : Settings) : AuthConfig :=
  let client_id := pyOr s.use_app_reg_clientid s.custom_client_id
  let tenant_id := pyOr s.tenantid s.custom_tenant_id
  if strTruthy client_id && strTruthy tenant_id then
    { mode := "custom"
      client_id := client_id.getD ""
      tenant_id := tenant_id.getD ""
      auth_mode := "client_secret"
      scopes := ["https://graph.microsoft.com/.default"] }
  else
    { mode := "default"
      client_id := s.graph_client_id
      tenant_id := (pyOr s.graph_tenant_id (some "common")).getD ""
      auth_mode := "device_code"
      scopes := ["https://graph.microsoft.com/.default"] }

/-- Embedding of `Settings.get_client_secret` (config.py lines 154-156):
`self.client_secret or self.custom_client_secret or self.graph_client_secret`. -/
def get_client_secret (s : Settings) : Option String :=
  pyOr (pyOr s.client_secret s.custom_client_secret) s.graph_client_secret

/-- Embedding of the computed field `Settings.is_read_only_mode`
(config.py lines 158-164). -/
def is_read_only_mode (s : Settings) : Bool :=
  let client_id := pyOr s.use_app_reg_clientid s.custom_client_id
  let tenant_id := pyOr s.tenantid s.custom_tenant_id
  !(strTruthy client_id && strTruthy tenant_id)

/-! ### Claim C1: auth-config resolution -/

/-- Claim C1 (confirmed).  For every input configuration, `get_auth_config`
returns: if the resolved client id (first non-empty of the MCP-style alias
`use_app_reg_clientid` and the custom alias `custom_client_id`) and the
resolved tenant id (first non-empty of `tenantid` and `custom_tenant_id`) are
both non-empty, the custom mode with the client-secret strategy and those
resolved identifiers; otherwise the default mode with the default client id,
the default tenant id when non-empty else "common", and the device-code
strategy; in both cases the scopes are the single provider-default scope.
The statement is universally quantified over all presence/absence combinations
of the optional inputs, and determinism is immediate since `get_auth_config`
is a pure function. -/
theorem c1_auth_config_resolution (s : Settings) :
    (strTruthy (pyOr s.use_app_reg_clientid s.custom_client_id) = true →
     strTruthy (pyOr s.tenantid s.custom_tenant_id) = true →
     get_auth_config s =
       { mode := "custom"
         client_id := (pyOr s.use_app_reg_clientid s.custom_client_id).getD ""
         tenant_id := (pyOr s.tenantid s.custom_tenant_id).getD ""
         auth_mode := "client_secret"
         scopes := ["https://graph.microsoft.com/.default"] }) ∧
    (¬ (strTruthy (pyOr s.use_app_reg_clientid s.custom_client_id) = true ∧
        strTruthy (pyOr s.tenantid s.custom_tenant_id) = true) →
     get_auth_config s =
       { mode := "default"
         client_id := s.graph_client_id
         tenant_id := if strTruthy s.graph_tenant_id then s.graph_tenant_id.getD "" else "common"
         auth_mode := "device_code"
         scopes := ["https://graph.microsoft.com/.default"] }) := by
  constructor
  · intro h1 h2
    simp only [get_auth_config, h1, h2, Bool.and_self, if_pos]
  · intro h
    have hb : (strTruthy (pyOr s.use_app_reg_clientid s.custom_client_id) &&
        strTruthy (pyOr s.tenantid s.custom_tenant_id)) = false := by
      by_cases h1 : strTruthy (pyOr s.use_app_reg_clientid s.custom_client_id) = true
      · by_cases h2 : strTruthy (pyOr s.tenantid s.custom_tenant_id) = true
        · exact absurd ⟨h1, h2⟩ h
        · simp [Bool.eq_false_iff.mpr (fun hc => h2 hc)]
      · simp [Bool.eq_false_iff.mpr (fun hc => h1 hc)]
    simp only [get_auth_config, hb, Bool.false_eq_true, if_false]
    unfold pyOr
    by_cases h1 : strTruthy s.graph_tenant_id = true
    · simp [h1]
    · simp [Bool.eq_false_iff.mpr (fun hc => h1 hc)]

/-- Concrete instantiation of `c1_auth_config_resolution`: MCP-style aliases
set, custom branch taken. -/
theorem c1_auth_config_resolution_witness :
    get_auth_config
      { graph_tenant_id := none, graph_client_id := "14d82eec-204b-4c2f-b7e8-296a70dab67e"
        custom_client_id := none, custom_tenant_id := none, custom_client_secret := none
        use_app_reg_clientid := some "app-cid", tenantid := some "app-tid"
        client_secret := none, graph_client_secret := none } =
      { mode := "custom", client_id := "app-cid", tenant_id := "app-tid"
        auth_mode := "client_secret"
        scopes := ["https://graph.microsoft.com/.default"] } :=
  (c1_auth_config_resolution _).1 rfl rfl

/-! ### Claim C9: read-only mode iff default mode -/

/-- Claim C9 (confirmed).  For every settings configuration,
`is_read_only_mode` is true iff the resolved authentication mode is the
default mode, i.e. iff not both the resolved client id and tenant id are
non-empty. -/
theorem c9_read_only_iff_default (s : Settings) :
    is_read_only_mode s = ((get_auth_config s).mode == "default") ∧
    is_read_only_mode s =
      !(strTruthy (pyOr s.use_app_reg_clientid s.custom_client_id) &&
        strTruthy (pyOr s.tenantid s.custom_tenant_id)) := by
  unfold is_read_only_mode get_auth_config
  rcases Bool.eq_false_or_eq_true
      (strTruthy (pyOr s.use_app_reg_clientid s.custom_client_id) &&
       strTruthy (pyOr s.tenantid s.custom_tenant_id)) with h | h <;>
    simp [h]

/-! ### Embedding of `graph_mcp/services/graph_service.py` -/

/-- JSON values, modelling Python objects decoded from / encoded to JSON
(request bodies, response bodies, the dictionaries built by the service). -/
inductive Json where
  | null : Json
  | bool (b : Bool) : Json
  | num (n : Int) : Json
  | str (s : String) : Json
  | arr (xs : List Json) : Json
  | obj (kvs : List (String × Json)) : Json

/-- Python `repr` of a JSON-shaped value (best-effort rendering used by the
embedding of f-string interpolation for non-string values). -/
def pyRepr : Json → String
  | Json.null => "None"
  | Json.bool b => if b then "True" else "False"
  | Json.num n => toString n
  | Json.str s => "\x27" ++ s ++ "\x27"
  | Json.arr xs =>
      "[" ++ String.intercalate ", " (xs.attach.map (fun x => pyRepr x.1)) ++ "]"
  | Json.obj kvs =>
      "\x7b" ++
        String.intercalate ", "
          (kvs.attach.map (fun kv => "\x27" ++ kv.1.1 ++ "\x27: " ++ pyRepr kv.1.2)) ++
        "\x7d"
decreasing_by
  · have := List.sizeOf_lt_of_mem x.2
    simp only [Json.arr.sizeOf_spec]
    omega
  · have h1 := List.sizeOf_lt_of_mem kv.2
    have h2 : sizeOf kv.1.2 < sizeOf kv.1 := by
      obtain ⟨a, b⟩ := kv.1
      simp only [Prod.mk.sizeOf_spec]
      omega
    simp only [Json.obj.sizeOf_spec]
    omega

/-- Python `str()` of a JSON-shaped value: the identity on strings, `repr`
otherwise (embedding of f-string interpolation). -/
def pyStr : Json → String
  | Json.str s => s
  | j => pyRepr j

/-- The Python type name of a JSON-shaped value, as it appears in an
`AttributeError` message. -/
def pyTypeName : Json → String
  | Json.null => "NoneType"
  | Json.bool _ => "bool"
  | Json.num _ => "int"
  | Json.str _ => "str"
  | Json.arr _ => "list"
  | Json.obj _ => "dict"

/-- What `str(e)` yields for the `AttributeError` raised by `x.get(...)` when
`x` is not a dict: the exception message alone, with no class-name prefix
(`str()` of an `AttributeError` is just its message). -/
def pyGetAttrError (j : Json) : String :=
  "\x27" ++ pyTypeName j ++ "\x27 object has no attribute \x27get\x27"

/-- Python `x.get(k, dflt)`: a lookup when `x` is a dict, an `AttributeError`
(modelled as `Except.error`) otherwise. -/
def pyDictGet (j : Json) (k : String) (dflt : Json) : Except String Json :=
  match j with
  | Json.obj kvs => Except.ok ((kvs.lookup k).getD dflt)
  | _ => Except.error (pyGetAttrError j)

/-- Python `pat in hay` on strings (substring containment). -/
def containsSub (hay pat : String) : Bool :=
  decide (pat.data <:+: hay.data)

/-- The record stored by `GraphService._device_code_callback`
(graph_service.py lines 49-56). -/
structure DeviceCodeInfo where
  verification_uri : String
  user_code : String
  expires_in : Nat
deriving DecidableEq

/-- The two credential handles the service can construct
(graph_service.py lines 124-137), with their constructor arguments. -/
inductive Credential where
  | clientSecretCred (tenant_id : String) (client_id : String) (secret : Option String)
  | deviceCodeCred (client_id : String) (tenant_id : String)
deriving DecidableEq

/-- Observable side effects of one `execute_command` call, in order of
occurrence: resetting `device_code_info` to `None` (line 140), constructing a
credential handle, invoking `credential.get_token`, and dispatching an HTTP
request with a given url, verb and JSON body. -/
inductive Event where
  | clearDC : Event
  | createCred (c : Credential) : Event
  | getToken (c : Credential) : Event
  | httpSend (url : String) (verb : String) (body : Option Json) : Event

/-- Outcome of `credential.get_token` under the 3-second `asyncio.wait_for`
bound: the wait ceiling exceeded (`asyncio.TimeoutError`), any other exception
(caught by `except Exception as auth_error`), or a token. -/
inductive AcquireResult where
  | timeout : AcquireResult
  | authError (msg : String) : AcquireResult
  | success (token : String) : AcquireResult
deriving DecidableEq

/-- An HTTP response from the remote API: status, raw text, and the result of
`response.json()` (`none` models a raised `json.JSONDecodeError`). -/
structure HttpResponse where
  status_code : Nat
  text : String
  json : Option Json

/-- Oracle describing the behaviour of the external world during one call:
a fault injected by a credential constructor, the device-code callback data
the provider delivers during token acquisition, the acquisition outcome, a
fault injected by the HTTP request call, and the HTTP response. -/
structure Env where
  createFault : Option String
  callbackInfo : Option DeviceCodeInfo
  acquireResult : AcquireResult
  httpFault : Option String
  response : HttpResponse

/-- The mutable fields of `GraphService` (graph_service.py lines 36-39)
together with the immutable `auth_config` computed at construction. -/
structure SvcState where
  device_code_info : Option DeviceCodeInfo
  credential : Option Credential
  client_secret : Option String
  auth_config : AuthConfig

/-- The result dictionary returned by `execute_command`; absent keys are
`none`. -/
structure CommandResult where
  success : Bool
  data : Option Json := none
  error : Option String := none
  auth_required : Option Bool := none
  auth_type : Option String := none
  client_id : Option String := none
  tenant_id : Option String := none
  verification_uri : Option String := none
  user_code : Option String := none
  expires_in : Option Nat := none
  instructions : Option String := none
  error_details : Option Json := none
  status_code : Option Nat := none

/-- Fixed segment of the missing-client-secret instruction text preceding the
client id. -/
def sriPart1 : String :=
  "\nCLIENT SECRET REQUIRED:\n\nYour custom app registration requires a client secret for authentication.\n\nApp Registration Details:\n• Client ID: "

/-- Fixed segment of the missing-client-secret instruction text between the
client id and the tenant id. -/
def sriPart2 : String :=
  "\n• Tenant ID: "

/-- Fixed segment of the missing-client-secret instruction text between the
tenant id and the second client-id interpolation, holding the two setup
options (parameter vs. environment variable). -/
def sriPart3 : String :=
  "\n\nTo complete authentication, you can either:\n\nOPTION 1 - Provide via parameter (temporary):\n\x7b\n  \"command\": \"users\",\n  \"method\": \"GET\", \n  \"client_secret\": \"your-app-secret-here\"\n\x7d\n\nOPTION 2 - Set as environment variable (persistent):\nAdd to your MCP configuration:\n  \"env\": \x7b\n    \"CLIENT_SECRET\": \"your-app-secret-here\"\n  \x7d\n\nOr use Docker args:\n  \"-e\", \"CLIENT_SECRET=your-app-secret-here\"\n\nIf you don\x27t have a client secret:\n- Go to Azure Portal > Azure Active Directory > App registrations\n- Find your app registration (Client ID: "

/-- Fixed trailing segment of the missing-client-secret instruction text. -/
def sriPart4 : String :=
  ")\n- Go to Certificates & secrets > New client secret\n- Copy the secret VALUE (not the ID)\n\nThe client secret will be cached for subsequent requests in this session.\n"

/-- The instruction text of the missing-client-secret result
(`GraphService._get_client_secret`, graph_service.py lines 68-102). -/
def secretRequiredInstructions (cfg : AuthConfig) : String :=
  sriPart1 ++ cfg.client_id ++ sriPart2 ++ cfg.tenant_id ++ sriPart3 ++ cfg.client_id ++ sriPart4

/-- The failure dictionary returned by `GraphService._get_client_secret` when
no client secret is known (graph_service.py lines 60-103). -/
def secretRequiredResult (cfg : AuthConfig) : CommandResult :=
  { success := false
    error := some "Client secret required for custom app registration"
    auth_required := some true
    auth_type := some "client_secret"
    client_id := some cfg.client_id
    tenant_id := some cfg.tenant_id
    instructions := some (secretRequiredInstructions cfg) }

/-- Fixed segment of the device-code instruction text preceding the
verification url. -/
def dciPart1 : String :=
  "\nAUTHENTICATION REQUIRED:\n\n1. Open this URL in your browser: "

/-- Fixed segment of the device-code instruction text between the url and the
user code. -/
def dciPart2 : String :=
  "\n2. Enter this code: "

/-- Fixed segment of the device-code instruction text between the user code
and the expiry. -/
def dciPart3 : String :=
  "\n3. Complete the sign-in process with your Microsoft account\n4. This code expires in "

/-- Fixed trailing segment of the device-code instruction text. -/
def dciPart4 : String :=
  " seconds\n5. After successful authentication, try your request again\n\nThe authentication will be cached for future requests.\n"

/-- The instruction text of the device-code result (graph_service.py lines
165-175 and, identically, lines 200-210). -/
def deviceCodeInstructions (i : DeviceCodeInfo) : String :=
  dciPart1 ++ i.verification_uri ++ dciPart2 ++ i.user_code ++ dciPart3 ++
    toString i.expires_in ++ dciPart4

/-- The device-code-required dictionary (graph_service.py lines 158-176 and
193-211: the two occurrences are textually identical). -/
def deviceCodeResult (i : DeviceCodeInfo) : CommandResult :=
  { success := false
    error := some "Device code authentication required"
    auth_required := some true
    verification_uri := some i.verification_uri
    user_code := some i.user_code
    expires_in := some i.expires_in
    instructions := some (deviceCodeInstructions i) }

/-- The generic-timeout dictionary (graph_service.py lines 178-183). -/
def timeoutResult : CommandResult :=
  { success := false
    error := some "Authentication timeout"
    auth_required := some true
    instructions := some "Authentication timed out. Please try again." }

/-- The instruction text of the invalid-client-secret result
(graph_service.py lines 223-246). -/
def invalidSecretInstructions (cfg : AuthConfig) : String :=
  "\nCLIENT SECRET ERROR:\n\nThe client secret you provided is invalid. This could be because:\n\n1. You copied the Secret ID instead of the Secret Value\n   - In Azure Portal, use the VALUE column, not the Secret ID\n   - The value should look like: 0pz8Q~~xfcUDmn0...\n   - NOT the ID like: 74edbec7-9b02-44d6-b091-3df29daa1a2c\n\n2. The client secret has expired\n   - Check the expiration date in Azure Portal\n   - Create a new client secret if needed\n\n3. The client secret was incorrectly copied\n   - Make sure you copied the complete value\n   - Avoid extra spaces or characters\n\nApp Registration Details:\n• Client ID: " ++
  cfg.client_id ++
  "\n• Tenant ID: " ++
  cfg.tenant_id ++
  "\n\nPlease verify your client secret and try again.\n"

/-- The invalid-client-secret dictionary (graph_service.py lines 218-247). -/
def invalidSecretResult (cfg : AuthConfig) (msg : String) : CommandResult :=
  { success := false
    error := some "Invalid client secret provided"
    auth_required := some true
    error_details := some (Json.str msg)
    instructions := some (invalidSecretInstructions cfg) }

/-- The generic authentication-failure dictionary (graph_service.py lines
250-255). -/
def genericAuthResult (msg : String) : CommandResult :=
  { success := false
    error := some ("Authentication failed: " ++ msg)
    auth_required := some true
    instructions := some "Please try again. If the issue persists, you may need to clear cached credentials." }

/-- Outcome of the credential-ensuring step (graph_service.py lines 116-137):
a raised constructor exception, an early return with the missing-secret
dictionary, or a credential to proceed with (`proceed c st evs` always has
`st.credential = some c`). -/
inductive CredStepOut where
  | raised (e : String) (st : SvcState) (evs : List Event) : CredStepOut
  | early (r : CommandResult) (st : SvcState) (evs : List Event) : CredStepOut
  | proceed (cred : Credential) (st : SvcState) (evs : List Event) : CredStepOut

/-- The `if self.credential is None:` block of `execute_command`
(graph_service.py lines 116-137).  In custom mode with no known secret the
failure dictionary of `_get_client_secret` is returned (its `success` key is
false, so the `isinstance`/`not success` guard fires); otherwise the
appropriate credential is constructed, which may itself raise. -/
def credStep (env : Env) (st : SvcState) : CredStepOut :=
  match st.credential with
  | some c => CredStepOut.proceed c st []
  | none =>
    if st.auth_config.mode == "custom" then
      if !(strTruthy st.client_secret) then
        CredStepOut.early (secretRequiredResult st.auth_config) st []
      else
        match env.createFault with
        | some e => CredStepOut.raised e st []
        | none =>
          let c := Credential.clientSecretCred st.auth_config.tenant_id
              st.auth_config.client_id st.client_secret
          CredStepOut.proceed c { st with credential := some c } [Event.createCred c]
    else
      match env.createFault with
      | some e => CredStepOut.raised e st []
      | none =>
        let c := Credential.deviceCodeCred st.auth_config.client_id st.auth_config.tenant_id
        CredStepOut.proceed c { st with credential := some c } [Event.createCred c]

/-- Outcome of the bounded token acquisition: an early return with a
classification dictionary, or a bearer token. -/
inductive AcqOut where
  | early (r : CommandResult) (st : SvcState) : AcqOut
  | token (tok : String) (st : SvcState) : AcqOut

/-- The `asyncio.wait_for(... get_token ...)` call and its outcome
classification (graph_service.py lines 146-255).  The device-code prompt
callback can only be invoked by a `DeviceCodeCredential` (it is passed to no
other constructor); when invoked it stores its data in `device_code_info`.
On `asyncio.TimeoutError` the credential is retained; on any other exception
the credential is cleared (line 189) and the error is classified by the
invalid-client-secret substring test (line 217). -/
def acquireStage (env : Env) (st : SvcState) (cred : Credential) : AcqOut :=
  let st1 :=
    match cred, env.callbackInfo with
    | Credential.deviceCodeCred _ _, some i => { st with device_code_info := some i }
    | _, _ => st
  match env.acquireResult with
  | AcquireResult.success tok => AcqOut.token tok st1
  | AcquireResult.timeout =>
    match st1.device_code_info with
    | some i => AcqOut.early (deviceCodeResult i) st1
    | none => AcqOut.early timeoutResult st1
  | AcquireResult.authError msg =>
    let st2 := { st1 with credential := none }
    match st2.device_code_info with
    | some i => AcqOut.early (deviceCodeResult i) st2
    | none =>
      if containsSub msg "AADSTS7000215" || containsSub msg "Invalid client secret" then
        AcqOut.early (invalidSecretResult st2.auth_config msg) st2
      else
        AcqOut.early (genericAuthResult msg) st2

/-- Response normalization (graph_service.py lines 288-326).  Note that
`error_data.get("error", \x7b\x7d).get("message", response.text)` raises an
`AttributeError` when the parsed body, or its `error` member, is not a dict;
that exception propagates out of the normalization (to the top-level handler
of `execute_command`). -/
def normalizeResponse (r : HttpResponse) : Except String CommandResult :=
  if r.status_code ∈ [200, 201, 202, 204] then
    if r.status_code == 204 then
      Except.ok
        { success := true
          data := some (Json.obj
            [("message", Json.str "Operation completed successfully (no content returned)")])
          status_code := some r.status_code }
    else
      match r.json with
      | some d =>
        Except.ok { success := true, data := some d, status_code := some r.status_code }
      | none =>
        Except.ok
          { success := true
            data := some (Json.obj
              [("message", Json.str "Operation completed successfully"),
               ("response_text", Json.str r.text)])
            status_code := some r.status_code }
  else
    match r.json with
    | some errorData =>
      match pyDictGet errorData "error" (Json.obj []) with
      | Except.error e => Except.error e
      | Except.ok errVal =>
        match pyDictGet errVal "message" (Json.str r.text) with
        | Except.error e => Except.error e
        | Except.ok msgVal =>
          Except.ok
            { success := false
              error := some ("HTTP " ++ toString r.status_code ++ ": " ++ pyStr msgVal)
              status_code := some r.status_code
              error_details := some errorData }
    | none =>
      Except.ok
        { success := false
          error := some ("HTTP " ++ toString r.status_code ++ ": " ++ r.text)
          status_code := some r.status_code }

/-- One HTTP request through `httpx` (graph_service.py lines 270-279 together
with the response handling of lines 286-326): the send is attempted (and
recorded), the transport may raise, otherwise the response is normalized. -/
def sendRequest (env : Env) (url verb : String) (body : Option Json) :
    Except String CommandResult × List Event :=
  match env.httpFault with
  | some e => (Except.error e, [Event.httpSend url verb body])
  | none => (normalizeResponse env.response, [Event.httpSend url verb body])

/-- Python `method.upper()` (character-wise uppercase). -/
def pyUpper (s : String) : String :=
  String.mk (s.data.map Char.toUpper)

/-- Verb dispatch (graph_service.py lines 258-284): the url joins the base
with `command.lstrip("/")`; the comparison is on `method.upper()`; the JSON
body is passed for POST/PUT/PATCH only; an unsupported verb returns a failure
dictionary without any send. -/
def dispatchStage (env : Env) (command method : String) (data : Option Json) :
    Except String CommandResult × List Event :=
  let url := "https://graph.microsoft.com/v1.0/" ++ command.dropWhile (fun c => c == '/')
  let M := pyUpper method
  if M == "GET" then sendRequest env url "GET" none
  else if M == "POST" then sendRequest env url "POST" data
  else if M == "PUT" then sendRequest env url "PUT" data
  else if M == "PATCH" then sendRequest env url "PATCH" data
  else if M == "DELETE" then sendRequest env url "DELETE" none
  else
    (Except.ok { success := false, error := some ("Unsupported HTTP method: " ++ method) }, [])

/-- The body of the top-level `try:` of `execute_command` (graph_service.py
lines 108-326), as explicit state passing: store a truthy secret override,
ensure a credential exists (possibly returning early or raising), reset
`device_code_info`, acquire a token (classifying failures), then dispatch and
normalize.  The returned `Except` is the exception channel consumed by the
top-level handler. -/
def executeBody (env : Env) (st0 : SvcState) (command method : String)
    (data : Option Json) (secretArg : Option String) :
    Except String CommandResult × SvcState × List Event :=
  let st1 := if strTruthy secretArg then { st0 with client_secret := secretArg } else st0
  match credStep env st1 with
  | CredStepOut.raised e st evs => (Except.error e, st, evs)
  | CredStepOut.early r st evs => (Except.ok r, st, evs)
  | CredStepOut.proceed cred st evs =>
    let st2 := { st with device_code_info := none }
    let evs2 := evs ++ [Event.clearDC, Event.getToken cred]
    match acquireStage env st2 cred with
    | AcqOut.early r st3 => (Except.ok r, st3, evs2)
    | AcqOut.token _tok st3 =>
      let d := dispatchStage env command method data
      (d.1, st3, evs2 ++ d.2)

/-- What one `execute_command` call yields: the result dictionary, the
service state after the call, and the recorded event trace. -/
structure ExecOutcome where
  result : CommandResult
  state : SvcState
  events : List Event

/-- The top-level `except Exception as e:` handler of `execute_command`
(graph_service.py lines 328-333): any exception escaping the body is
converted to a failure dictionary carrying the exception message. -/
def pyCatch (x : Except String CommandResult × SvcState × List Event) : ExecOutcome :=
  match x with
  | (Except.ok r, st, evs) => { result := r, state := st, events := evs }
  | (Except.error e, st, evs) =>
    { result := { success := false, error := some e }, state := st, events := evs }

/-- Embedding of `GraphService.execute_command` (graph_service.py lines
106-333). -/
def execute_command (env : Env) (st : SvcState) (command method : String)
    (data : Option Json) (secretArg : Option String) : ExecOutcome :=
  pyCatch (executeBody env st command method data secretArg)

/-! ### Structural lemmas about the stages -/

/-- Every result produced by response normalization is structured: success, or
failure with an error message set. -/
theorem normalizeResponse_structured (r : HttpResponse) (res : CommandResult)
    (h : normalizeResponse r = Except.ok res) :
    res.success = true ∨ (res.success = false ∧ res.error.isSome = true) := by
  unfold normalizeResponse at h
  split at h
  · split at h
    · simp only [Except.ok.injEq] at h
      subst h; left; rfl
    · split at h <;>
        (simp only [Except.ok.injEq] at h; subst h; left; rfl)
  · split at h
    · split at h
      · exact absurd h (by simp)
      · split at h
        · exact absurd h (by simp)
        · simp only [Except.ok.injEq] at h
          subst h; right; exact ⟨rfl, rfl⟩
    · simp only [Except.ok.injEq] at h
      subst h; right; exact ⟨rfl, rfl⟩

/-- Every result produced by a single HTTP send is structured. -/
theorem sendRequest_structured (env : Env) (url verb : String) (body : Option Json)
    (res : CommandResult) (h : (sendRequest env url verb body).1 = Except.ok res) :
    res.success = true ∨ (res.success = false ∧ res.error.isSome = true) := by
  unfold sendRequest at h
  split at h
  · simp at h
  · simp only at h
    exact normalizeResponse_structured _ _ h

/-- Every result produced by verb dispatch is structured. -/
theorem dispatchStage_structured (env : Env) (c m : String) (d : Option Json)
    (res : CommandResult) (h : (dispatchStage env c m d).1 = Except.ok res) :
    res.success = true ∨ (res.success = false ∧ res.error.isSome = true) := by
  unfold dispatchStage at h
  dsimp only at h
  repeat' split at h
  all_goals first
    | exact sendRequest_structured _ _ _ _ _ h
    | (dsimp only at h; simp only [Except.ok.injEq] at h; subst h; right; exact ⟨rfl, rfl⟩)

/-- Every early return of the acquisition stage is a failure with an error
message set. -/
theorem acquireStage_early_structured (env : Env) (st : SvcState) (cred : Credential)
    (r : CommandResult) (st' : SvcState)
    (h : acquireStage env st cred = AcqOut.early r st') :
    r.success = false ∧ r.error.isSome = true := by
  unfold acquireStage at h
  cases cred <;> cases hcb : env.callbackInfo <;>
    cases henv : env.acquireResult <;>
    simp only [hcb, henv] at h <;>
    (try (cases hdc : st.device_code_info <;> simp only [hdc] at h)) <;>
    (try split at h) <;>
    first
      | exact AcqOut.noConfusion h
      | (simp only [AcqOut.early.injEq] at h; obtain ⟨h1, -⟩ := h; subst h1; exact ⟨rfl, rfl⟩)

/-- The only early return of the credential step is the missing-secret
dictionary. -/
theorem credStep_early_eq (env : Env) (st : SvcState) (r : CommandResult)
    (st' : SvcState) (evs : List Event)
    (h : credStep env st = CredStepOut.early r st' evs) :
    r = secretRequiredResult st.auth_config ∧ st' = st ∧ evs = [] := by
  unfold credStep at h
  split at h
  · exact absurd h (by simp)
  · split at h
    · split at h
      · simp only [CredStepOut.early.injEq] at h
        exact ⟨h.1.symm, h.2.1.symm, h.2.2.symm⟩
      · split at h <;> exact absurd h (by simp)
    · split at h <;> exact absurd h (by simp)

/-- A raised ensuring step leaves the state untouched and records no event. -/
theorem credStep_raised_eq (env : Env) (st : SvcState) (e : String)
    (st' : SvcState) (evs : List Event)
    (h : credStep env st = CredStepOut.raised e st' evs) :
    st' = st ∧ evs = [] := by
  unfold credStep at h
  split at h
  · exact absurd h (by simp)
  · split at h
    · split at h
      · exact absurd h (by simp)
      · split at h
        · simp only [CredStepOut.raised.injEq] at h
          exact ⟨h.2.1.symm, h.2.2.symm⟩
        · exact absurd h (by simp)
    · split at h
      · simp only [CredStepOut.raised.injEq] at h
        exact ⟨h.2.1.symm, h.2.2.symm⟩
      · exact absurd h (by simp)

/-- The ensuring step records either nothing or exactly one credential
creation. -/
theorem credStep_proceed_evs (env : Env) (st : SvcState) (cred : Credential)
    (st' : SvcState) (evs : List Event)
    (h : credStep env st = CredStepOut.proceed cred st' evs) :
    evs = [] ∨ evs = [Event.createCred cred] := by
  unfold credStep at h
  split at h
  · simp only [CredStepOut.proceed.injEq] at h
    left; exact h.2.2.symm
  · split at h
    · split at h
      · exact absurd h (by simp)
      · split at h
        · exact absurd h (by simp)
        · simp only [CredStepOut.proceed.injEq] at h
          right; rw [← h.2.2, h.1]
    · split at h
      · exact absurd h (by simp)
      · simp only [CredStepOut.proceed.injEq] at h
        right; rw [← h.2.2, h.1]

/-! ### Claim C2: the executor always returns a structured result -/

/-- Claim C2 (confirmed).  For every input (command, method, data, secret
override), every service state, and every behaviour of the credential
provider and of the remote API — including an exception raised at credential
creation (`Env.createFault`), any token-acquisition outcome, an exception
raised by the HTTP dispatch (`Env.httpFault`), and response-parsing faults
(non-JSON bodies, and the `AttributeError` raised when the error body is not
dict-shaped) — `execute_command` returns a structured result: either
`success = true`, or `success = false` with an error message set.  No
exception escapes: the exception channel of `executeBody` is consumed by the
top-level handler `pyCatch`, so `execute_command` is a total function into
result dictionaries. -/
theorem c2_always_structured_result (env : Env) (st : SvcState) (command method : String)
    (data : Option Json) (secretArg : Option String) :
    (execute_command env st command method data secretArg).result.success = true ∨
    ((execute_command env st command method data secretArg).result.success = false ∧
     (execute_command env st command method data secretArg).result.error.isSome = true) := by
  unfold execute_command executeBody
  cases hcs : credStep env
      (if strTruthy secretArg then { st with client_secret := secretArg } else st) with
  | raised e st' evs =>
    simp [pyCatch, hcs]
  | early r st' evs =>
    obtain ⟨hr, -⟩ := credStep_early_eq _ _ _ _ _ hcs
    subst hr
    simp [pyCatch, hcs, secretRequiredResult]
  | proceed cred st' evs =>
    cases hacq : acquireStage env { st' with device_code_info := none } cred with
    | early r st3 =>
      obtain ⟨h1, h2⟩ := acquireStage_early_structured _ _ _ _ _ hacq
      simp [pyCatch, hcs, hacq, h1, h2]
    | token tok st3 =>
      rcases hd : dispatchStage env command method data with ⟨dres, devs⟩
      cases dres with
      | error e =>
        simp [pyCatch, hcs, hacq, hd]
      | ok res =>
        have := dispatchStage_structured env command method data res (by rw [hd])
        rcases this with h1 | ⟨h1, h2⟩
        · simp [pyCatch, hcs, hacq, hd, h1]
        · simp [pyCatch, hcs, hacq, hd, h1, h2]

/-! ### Claim C3: missing client secret returns immediately -/

/-- The characters of the middle string are an infix of a surrounding
concatenation. -/
theorem data_infix_mid (a b c : String) : b.data <:+: (a ++ b ++ c).data :=
  ⟨a.data, c.data, by simp [String.data_append]⟩

/-- The missing-secret instructions embed the configured client id. -/
theorem sri_contains_client_id (cfg : AuthConfig) :
    cfg.client_id.data <:+: (secretRequiredInstructions cfg).data := by
  have h : secretRequiredInstructions cfg =
      sriPart1 ++ cfg.client_id ++
        (sriPart2 ++ cfg.tenant_id ++ sriPart3 ++ cfg.client_id ++ sriPart4) := by
    simp [secretRequiredInstructions, String.append_assoc]
  rw [h]; exact data_infix_mid _ _ _

/-- The missing-secret instructions embed the configured tenant id. -/
theorem sri_contains_tenant_id (cfg : AuthConfig) :
    cfg.tenant_id.data <:+: (secretRequiredInstructions cfg).data := by
  have h : secretRequiredInstructions cfg =
      (sriPart1 ++ cfg.client_id ++ sriPart2) ++ cfg.tenant_id ++
        (sriPart3 ++ cfg.client_id ++ sriPart4) := by
    simp [secretRequiredInstructions, String.append_assoc]
  rw [h]; exact data_infix_mid _ _ _

/-- The missing-secret instructions embed the setup-guidance segment (the
parameter option and the environment-variable option). -/
theorem sri_contains_guidance (cfg : AuthConfig) :
    sriPart3.data <:+: (secretRequiredInstructions cfg).data := by
  have h : secretRequiredInstructions cfg =
      (sriPart1 ++ cfg.client_id ++ sriPart2 ++ cfg.tenant_id) ++ sriPart3 ++
        (cfg.client_id ++ sriPart4) := by
    simp [secretRequiredInstructions, String.append_assoc]
  rw [h]; exact data_infix_mid _ _ _

/-- Claim C3 (confirmed).  Under the client-secret strategy (custom mode),
when no secret is known — none cached in the state, none from configuration
(the state field is initialised from configuration), and none supplied as the
per-call override — `execute_command` returns immediately the missing-secret
dictionary: `success = false`, `auth_required = true`, an error stating a
client secret is required, and instructions containing the setup guidance and
the configured client and tenant identifiers; the state is unchanged (no
credential is created) and the event trace is empty (no token request and no
HTTP request is attempted). -/
theorem c3_missing_secret (env : Env) (st : SvcState) (command method : String)
    (data : Option Json) (secretArg : Option String)
    (hmode : st.auth_config.mode = "custom")
    (hcred : st.credential = none)
    (hsec : strTruthy st.client_secret = false)
    (harg : strTruthy secretArg = false) :
    (execute_command env st command method data secretArg).result =
      secretRequiredResult st.auth_config ∧
    (execute_command env st command method data secretArg).state = st ∧
    (execute_command env st command method data secretArg).events = [] ∧
    (execute_command env st command method data secretArg).result.success = false ∧
    (execute_command env st command method data secretArg).result.auth_required = some true ∧
    (execute_command env st command method data secretArg).result.error =
      some "Client secret required for custom app registration" ∧
    (execute_command env st command method data secretArg).result.client_id =
      some st.auth_config.client_id ∧
    (execute_command env st command method data secretArg).result.tenant_id =
      some st.auth_config.tenant_id ∧
    (∃ ins, (execute_command env st command method data secretArg).result.instructions =
        some ins ∧
      st.auth_config.client_id.data <:+: ins.data ∧
      st.auth_config.tenant_id.data <:+: ins.data ∧
      sriPart3.data <:+: ins.data) := by
  have hmain : execute_command env st command method data secretArg =
      { result := secretRequiredResult st.auth_config, state := st, events := [] } := by
    unfold execute_command executeBody credStep pyCatch
    simp [harg, hcred, hmode, hsec]
  rw [hmain]
  exact ⟨rfl, rfl, rfl, rfl, rfl, rfl, rfl, rfl,
    secretRequiredInstructions st.auth_config, rfl,
    sri_contains_client_id _, sri_contains_tenant_id _, sri_contains_guidance _⟩

/-- The custom-mode auth config used by the concrete scenarios. -/
def cfgCustom : AuthConfig :=
  { mode := "custom", client_id := "cid-1", tenant_id := "tid-1"
    auth_mode := "client_secret", scopes := ["https://graph.microsoft.com/.default"] }

/-- An environment whose token acquisition times out. -/
def envTimeout : Env :=
  { createFault := none, callbackInfo := none, acquireResult := AcquireResult.timeout
    httpFault := none, response := { status_code := 200, text := "", json := none } }

/-- Custom-mode service state with no credential and no known secret. -/
def stNoSecret : SvcState :=
  { device_code_info := none, credential := none, client_secret := none
    auth_config := cfgCustom }

/-- Concrete instantiation of `c3_missing_secret`. -/
theorem c3_missing_secret_witness :
    (execute_command envTimeout stNoSecret "users" "GET" none none).result =
      secretRequiredResult cfgCustom ∧
    (execute_command envTimeout stNoSecret "users" "GET" none none).state = stNoSecret ∧
    (execute_command envTimeout stNoSecret "users" "GET" none none).events = [] ∧
    (execute_command envTimeout stNoSecret "users" "GET" none none).result.success = false ∧
    (execute_command envTimeout stNoSecret "users" "GET" none none).result.auth_required =
      some true ∧
    (execute_command envTimeout stNoSecret "users" "GET" none none).result.error =
      some "Client secret required for custom app registration" ∧
    (execute_command envTimeout stNoSecret "users" "GET" none none).result.client_id =
      some cfgCustom.client_id ∧
    (execute_command envTimeout stNoSecret "users" "GET" none none).result.tenant_id =
      some cfgCustom.tenant_id ∧
    (∃ ins, (execute_command envTimeout stNoSecret "users" "GET" none none).result.instructions =
        some ins ∧
      cfgCustom.client_id.data <:+: ins.data ∧
      cfgCustom.tenant_id.data <:+: ins.data ∧
      sriPart3.data <:+: ins.data) :=
  c3_missing_secret envTimeout stNoSecret "users" "GET" none none rfl rfl rfl rfl

/-! ### Characterization lemmas for the stages -/

/-- Storing the secret override never touches the credential handle. -/
theorem storeSecret_credential (st : SvcState) (secretArg : Option String) :
    ((if strTruthy secretArg then { st with client_secret := secretArg } else st) :
      SvcState).credential = st.credential := by
  split <;> rfl

/-- Storing the secret override never touches the pending device-code record. -/
theorem storeSecret_device_code (st : SvcState) (secretArg : Option String) :
    ((if strTruthy secretArg then { st with client_secret := secretArg } else st) :
      SvcState).device_code_info = st.device_code_info := by
  split <;> rfl

/-- Storing the secret override never touches the auth config. -/
theorem storeSecret_auth_config (st : SvcState) (secretArg : Option String) :
    ((if strTruthy secretArg then { st with client_secret := secretArg } else st) :
      SvcState).auth_config = st.auth_config := by
  split <;> rfl

/-- After the store step the known secret is `pyOr secretArg st.client_secret`. -/
theorem storeSecret_client_secret (st : SvcState) (secretArg : Option String) :
    ((if strTruthy secretArg then { st with client_secret := secretArg } else st) :
      SvcState).client_secret = pyOr secretArg st.client_secret := by
  unfold pyOr; split <;> rfl

/-- With an existing credential the ensuring step is a no-op. -/
theorem credStep_some (env : Env) (st : SvcState) (c : Credential)
    (hc : st.credential = some c) :
    credStep env st = CredStepOut.proceed c st [] := by
  unfold credStep; rw [hc]

/-- In custom mode with a known secret and a non-faulting constructor, the
ensuring step builds a `ClientSecretCredential`. -/
theorem credStep_create_custom (env : Env) (st : SvcState)
    (hc : st.credential = none) (hmode : st.auth_config.mode = "custom")
    (hsec : strTruthy st.client_secret = true) (hcf : env.createFault = none) :
    credStep env st = CredStepOut.proceed
      (Credential.clientSecretCred st.auth_config.tenant_id st.auth_config.client_id
        st.client_secret)
      { st with credential := some (Credential.clientSecretCred st.auth_config.tenant_id
          st.auth_config.client_id st.client_secret) }
      [Event.createCred (Credential.clientSecretCred st.auth_config.tenant_id
        st.auth_config.client_id st.client_secret)] := by
  unfold credStep; rw [hc]; simp [hmode, hsec, hcf]

/-- In default mode with a non-faulting constructor, the ensuring step builds
a `DeviceCodeCredential` from the configured client and tenant ids. -/
theorem credStep_create_default (env : Env) (st : SvcState)
    (hc : st.credential = none) (hmode : ¬ st.auth_config.mode = "custom")
    (hcf : env.createFault = none) :
    credStep env st = CredStepOut.proceed
      (Credential.deviceCodeCred st.auth_config.client_id st.auth_config.tenant_id)
      { st with credential := some (Credential.deviceCodeCred st.auth_config.client_id
          st.auth_config.tenant_id) }
      [Event.createCred (Credential.deviceCodeCred st.auth_config.client_id
        st.auth_config.tenant_id)] := by
  unfold credStep
  rw [hc]
  have hb : (st.auth_config.mode == "custom") = false := beq_eq_false_iff_ne.mpr hmode
  simp [hb, hcf]

/-- On an acquisition error the stage returns early and the state it returns
has the credential cleared; the known secret and config are untouched. -/
theorem acquireStage_authError_clears (env : Env) (st : SvcState) (cred : Credential)
    (msg : String) (henv : env.acquireResult = AcquireResult.authError msg) :
    ∃ r st', acquireStage env st cred = AcqOut.early r st' ∧
      st'.credential = none ∧ st'.client_secret = st.client_secret ∧
      st'.auth_config = st.auth_config := by
  unfold acquireStage
  cases cred <;> cases hcb : env.callbackInfo <;>
    simp only [henv, hcb] <;>
    (try (cases hdc : st.device_code_info <;> simp only [hdc])) <;>
    (try split) <;>
    exact ⟨_, _, rfl, rfl, rfl, rfl⟩

/-- On a timeout the stage returns early and the state it returns keeps the
credential handle; the known secret and config are untouched. -/
theorem acquireStage_timeout_keeps (env : Env) (st : SvcState) (cred : Credential)
    (henv : env.acquireResult = AcquireResult.timeout) :
    ∃ r st', acquireStage env st cred = AcqOut.early r st' ∧
      st'.credential = st.credential ∧ st'.client_secret = st.client_secret ∧
      st'.auth_config = st.auth_config := by
  unfold acquireStage
  cases cred <;> cases hcb : env.callbackInfo <;>
    simp only [henv, hcb] <;>
    (try (cases hdc : st.device_code_info <;> simp only [hdc])) <;>
    exact ⟨_, _, rfl, rfl, rfl, rfl⟩

/-- On success the stage hands the token on; the credential handle, known
secret and config are untouched. -/
theorem acquireStage_success_keeps (env : Env) (st : SvcState) (cred : Credential)
    (tok : String) (henv : env.acquireResult = AcquireResult.success tok) :
    ∃ st', acquireStage env st cred = AcqOut.token tok st' ∧
      st'.credential = st.credential ∧ st'.client_secret = st.client_secret ∧
      st'.auth_config = st.auth_config := by
  unfold acquireStage
  cases cred <;> cases hcb : env.callbackInfo <;>
    simp only [henv, hcb] <;>
    exact ⟨_, rfl, rfl, rfl, rfl⟩

/-- Unfolding of `execute_command` once the ensuring step proceeds with a
credential. -/
theorem execute_of_proceed (env : Env) (st : SvcState) (command method : String)
    (data : Option Json) (secretArg : Option String) (cred : Credential)
    (st' : SvcState) (evs : List Event)
    (h : credStep env
        (if strTruthy secretArg then { st with client_secret := secretArg } else st) =
      CredStepOut.proceed cred st' evs) :
    execute_command env st command method data secretArg =
      (match acquireStage env { st' with device_code_info := none } cred with
       | AcqOut.early r st3 =>
         { result := r, state := st3, events := evs ++ [Event.clearDC, Event.getToken cred] }
       | AcqOut.token _ st3 =>
         pyCatch ((dispatchStage env command method data).1, st3,
           (evs ++ [Event.clearDC, Event.getToken cred]) ++
             (dispatchStage env command method data).2)) := by
  unfold execute_command executeBody
  dsimp only
  rw [h]
  cases hacq : acquireStage env
      { st' with device_code_info := none } cred with
  | early r st3 => simp [pyCatch, hacq]
  | token tok st3 => simp [pyCatch, hacq]

/-! ### Claim C4: credential discard after failed acquisition -/

/-- Custom-mode client-secret credential used by the concrete scenarios. -/
def credC : Credential := Credential.clientSecretCred "tid-1" "cid-1" (some "sec")

/-- Custom-mode service state that already holds a credential handle and a
known secret. -/
def stWithCred : SvcState :=
  { device_code_info := none, credential := some credC, client_secret := some "sec"
    auth_config := cfgCustom }

/-- Counterexample to claim C4 as stated.  Under the client-secret strategy,
a token acquisition that exceeds the wait ceiling (a timeout) returns an
unsuccessful acquisition-stage result, yet the credential handle is NOT
discarded: the state after the call still holds the same handle.  The claim
asserts the handle is discarded after every failed acquisition "whether by
exceeding the wait ceiling or by an acquisition error"; the timeout half is
false on the code (only the exception branch clears `self.credential`). -/
theorem c4_counterexample :
    (execute_command envTimeout stWithCred "me" "GET" none none).result.success = false ∧
    (execute_command envTimeout stWithCred "me" "GET" none none).result.error =
      some "Authentication timeout" ∧
    (execute_command envTimeout stWithCred "me" "GET" none none).result.auth_required =
      some true ∧
    (execute_command envTimeout stWithCred "me" "GET" none none).state.credential =
      some credC :=
  ⟨rfl, rfl, rfl, rfl⟩

/-- Claim C4 as amended (proved).  At most one credential handle exists at a
time (the state holds an `Option Credential`), and after every
`execute_command` call under the ClientSecret strategy in which token
acquisition fails with an acquisition error (an exception), the credential
handle has been discarded, so the next call reconstructs it and a corrected
secret can be retried; an acquisition failure by exceeding the wait ceiling
(timeout) instead retains the handle. -/
theorem c4_cred_discarded_on_auth_error (env : Env) (st : SvcState)
    (command method : String) (data : Option Json) (secretArg : Option String)
    (hmode : st.auth_config.mode = "custom")
    (hready : (∃ c, st.credential = some c) ∨
      (st.credential = none ∧ strTruthy (pyOr secretArg st.client_secret) = true ∧
       env.createFault = none)) :
    (∀ msg, env.acquireResult = AcquireResult.authError msg →
       (execute_command env st command method data secretArg).state.credential = none) ∧
    (env.acquireResult = AcquireResult.timeout →
       (execute_command env st command method data secretArg).state.credential.isSome =
         true) := by
  have hproceed : ∃ cred st' evs,
      credStep env
        (if strTruthy secretArg then { st with client_secret := secretArg } else st) =
        CredStepOut.proceed cred st' evs ∧ st'.credential = some cred := by
    rcases hready with ⟨c, hc⟩ | ⟨hc, hsec, hcf⟩
    · refine ⟨c, _, [], credStep_some _ _ c ?_, ?_⟩
      · rw [storeSecret_credential]; exact hc
      · rw [storeSecret_credential]; exact hc
    · refine ⟨_, _, _, credStep_create_custom env _ ?_ ?_ ?_ hcf, rfl⟩
      · rw [storeSecret_credential]; exact hc
      · rw [storeSecret_auth_config]; exact hmode
      · rw [storeSecret_client_secret]; exact hsec
  obtain ⟨cred, st', evs, hcs, hcred'⟩ := hproceed
  constructor
  · intro msg henv
    obtain ⟨r, st3, hacq, hclear, -, -⟩ :=
      acquireStage_authError_clears env { st' with device_code_info := none } cred msg henv
    rw [execute_of_proceed env st command method data secretArg cred st' evs hcs, hacq]
    exact hclear
  · intro henv
    obtain ⟨r, st3, hacq, hkeep, -, -⟩ :=
      acquireStage_timeout_keeps env { st' with device_code_info := none } cred henv
    rw [execute_of_proceed env st command method data secretArg cred st' evs hcs, hacq]
    simp only
    rw [hkeep]
    show (({ st' with device_code_info := none } : SvcState).credential).isSome = true
    simp [hcred']

/-- An environment whose token acquisition raises a generic exception. -/
def envAuthError : Env :=
  { createFault := none, callbackInfo := none
    acquireResult := AcquireResult.authError "boom"
    httpFault := none, response := { status_code := 200, text := "", json := none } }

/-- Concrete instantiation of `c4_cred_discarded_on_auth_error`: an existing
handle is discarded by an acquisition error. -/
theorem c4_cred_discarded_on_auth_error_witness :
    (∀ msg, envAuthError.acquireResult = AcquireResult.authError msg →
       (execute_command envAuthError stWithCred "me" "GET" none none).state.credential =
         none) ∧
    (envAuthError.acquireResult = AcquireResult.timeout →
       (execute_command envAuthError stWithCred "me" "GET" none none).state.credential.isSome =
         true) :=
  c4_cred_discarded_on_auth_error envAuthError stWithCred "me" "GET" none none rfl
    (Or.inl ⟨credC, rfl⟩)

/-! ### Claim C5: when the pending device code is cleared -/

/-- The event trace of the call is the trace of its body, whether or not the
top-level handler fires. -/
theorem pyCatch_events (x : Except String CommandResult × SvcState × List Event) :
    (pyCatch x).events = x.2.2 := by
  rcases x with ⟨ex, s, evs⟩; cases ex <;> rfl

/-- The state after the call is the state of its body, whether or not the
top-level handler fires. -/
theorem pyCatch_state (x : Except String CommandResult × SvcState × List Event) :
    (pyCatch x).state = x.2.1 := by
  rcases x with ⟨ex, s, evs⟩; cases ex <;> rfl

/-- Unfolding of `execute_command` when the ensuring step raises. -/
theorem execute_of_raised (env : Env) (st : SvcState) (command method : String)
    (data : Option Json) (secretArg : Option String) (e : String)
    (st' : SvcState) (evs : List Event)
    (h : credStep env
        (if strTruthy secretArg then { st with client_secret := secretArg } else st) =
      CredStepOut.raised e st' evs) :
    execute_command env st command method data secretArg =
      { result := { success := false, error := some e }, state := st', events := evs } := by
  unfold execute_command executeBody
  dsimp only
  rw [h]
  rfl

/-- Unfolding of `execute_command` when the ensuring step returns early. -/
theorem execute_of_early (env : Env) (st : SvcState) (command method : String)
    (data : Option Json) (secretArg : Option String) (r : CommandResult)
    (st' : SvcState) (evs : List Event)
    (h : credStep env
        (if strTruthy secretArg then { st with client_secret := secretArg } else st) =
      CredStepOut.early r st' evs) :
    execute_command env st command method data secretArg =
      { result := r, state := st', events := evs } := by
  unfold execute_command executeBody
  dsimp only
  rw [h]
  rfl

/-- Every event the dispatch stage records is an HTTP send. -/
theorem dispatchStage_events_httpSend (env : Env) (c m : String) (d : Option Json) :
    ∀ e ∈ (dispatchStage env c m d).2, ∃ u v b, e = Event.httpSend u v b := by
  unfold dispatchStage sendRequest
  dsimp only
  repeat' split
  all_goals intro e he
  all_goals dsimp only at he
  all_goals simp only [List.mem_singleton, List.not_mem_nil] at he
  all_goals first
    | exact he.elim
    | exact ⟨_, _, _, he⟩

/-- Stale record used by the counterexample: a device-code record left over
from an earlier call. -/
def dcPrev : DeviceCodeInfo :=
  { verification_uri := "https://prev", user_code := "OLD-1", expires_in := 500 }

/-- Custom-mode state with a stale pending device-code record, no credential
and no known secret. -/
def stStale : SvcState :=
  { device_code_info := some dcPrev, credential := none, client_secret := none
    auth_config := cfgCustom }

/-- Counterexample to claim C5 as stated.  The claim says the stored
`pending_device_code` record is reset before credential creation and before
any early return, so that no record from a previous call survives into the
current call's state.  On the code the reset (graph_service.py line 140) sits
after the credential-creation block, and the missing-secret early return
(line 122) happens before it: on a state carrying a stale record, the call
returns early with the record still in place and no clear event recorded. -/
theorem c5_counterexample :
    (execute_command envTimeout stStale "me" "GET" none none).state.device_code_info =
      some dcPrev ∧
    Event.clearDC ∉ (execute_command envTimeout stStale "me" "GET" none none).events :=
  ⟨rfl, by
    have h : (execute_command envTimeout stStale "me" "GET" none none).events = [] := rfl
    rw [h]
    exact List.not_mem_nil _⟩

/-- Claim C5 as amended (proved).  `pending_device_code` is cleared after
credential creation and immediately before token acquisition: on every call
that requests a token, the clear event immediately precedes the token request
in the trace (so no record from a previous call is visible to the
acquisition-outcome classification); a call that never requests a token (the
missing-secret early return, or a fault during credential creation) leaves
the stored record exactly as it was. -/
theorem c5_clear_precedes_token (env : Env) (st : SvcState) (command method : String)
    (data : Option Json) (secretArg : Option String) :
    (∀ c, Event.getToken c ∈ (execute_command env st command method data secretArg).events →
       [Event.clearDC, Event.getToken c] <:+:
         (execute_command env st command method data secretArg).events) ∧
    ((∀ c, Event.getToken c ∉ (execute_command env st command method data secretArg).events) →
       (execute_command env st command method data secretArg).state.device_code_info =
         st.device_code_info) := by
  cases hcs : credStep env
      (if strTruthy secretArg then { st with client_secret := secretArg } else st) with
  | raised e st' evs =>
    obtain ⟨hst, hevs⟩ := credStep_raised_eq _ _ _ _ _ hcs
    rw [execute_of_raised env st command method data secretArg e st' evs hcs]
    constructor
    · intro c hc
      rw [hevs] at hc
      exact absurd hc (List.not_mem_nil _)
    · intro _
      rw [hst]
      exact storeSecret_device_code st secretArg
  | early r st' evs =>
    obtain ⟨-, hst, hevs⟩ := credStep_early_eq _ _ _ _ _ hcs
    rw [execute_of_early env st command method data secretArg r st' evs hcs]
    constructor
    · intro c hc
      rw [hevs] at hc
      exact absurd hc (List.not_mem_nil _)
    · intro _
      rw [hst]
      exact storeSecret_device_code st secretArg
  | proceed cred st' evs =>
    have hevs := credStep_proceed_evs _ _ _ _ _ hcs
    rw [execute_of_proceed env st command method data secretArg cred st' evs hcs]
    cases hacq : acquireStage env { st' with device_code_info := none } cred with
    | early r st3 =>
      dsimp only
      constructor
      · intro c hc
        have hcc : c = cred := by
          rcases hevs with h | h <;> subst h <;> simp at hc <;> exact hc
        subst hcc
        exact ⟨evs, [], by simp⟩
      · intro hno
        exact absurd (by simp : Event.getToken cred ∈ evs ++ [Event.clearDC, Event.getToken cred])
          (hno cred)
    | token tok st3 =>
      dsimp only
      rw [pyCatch_events, pyCatch_state]
      dsimp only
      constructor
      · intro c hc
        have hcc : c = cred := by
          simp only [List.mem_append] at hc
          rcases hc with (hc | hc) | hc
          · rcases hevs with h | h <;> subst h <;> simp at hc
          · simp at hc; exact hc
          · obtain ⟨u, v, b, he⟩ :=
              dispatchStage_events_httpSend env command method data (Event.getToken c) hc
            exact Event.noConfusion he
        subst hcc
        exact ⟨evs, (dispatchStage env command method data).2, by simp⟩
      · intro hno
        exact absurd
          (by simp : Event.getToken cred ∈
            (evs ++ [Event.clearDC, Event.getToken cred]) ++
              (dispatchStage env command method data).2)
          (hno cred)

/-- Concrete instantiation of `c5_clear_precedes_token` (both conjuncts are
conditionals; the witness instantiates the theorem at a concrete state and
environment). -/
theorem c5_clear_precedes_token_witness :
    (∀ c, Event.getToken c ∈ (execute_command envTimeout stWithCred "me" "GET" none none).events →
       [Event.clearDC, Event.getToken c] <:+:
         (execute_command envTimeout stWithCred "me" "GET" none none).events) ∧
    ((∀ c, Event.getToken c ∉ (execute_command envTimeout stWithCred "me" "GET" none none).events) →
       (execute_command envTimeout stWithCred "me" "GET" none none).state.device_code_info =
         stWithCred.device_code_info) :=
  c5_clear_precedes_token envTimeout stWithCred "me" "GET" none none

/-! ### Claim C6: timeout with a pending device code -/

/-- The device-code instructions embed the verification url. -/
theorem dci_contains_uri (i : DeviceCodeInfo) :
    i.verification_uri.data <:+: (deviceCodeInstructions i).data := by
  have h : deviceCodeInstructions i =
      dciPart1 ++ i.verification_uri ++
        (dciPart2 ++ i.user_code ++ dciPart3 ++ toString i.expires_in ++ dciPart4) := by
    simp [deviceCodeInstructions, String.append_assoc]
  rw [h]; exact data_infix_mid _ _ _

/-- The device-code instructions embed the user code. -/
theorem dci_contains_code (i : DeviceCodeInfo) :
    i.user_code.data <:+: (deviceCodeInstructions i).data := by
  have h : deviceCodeInstructions i =
      (dciPart1 ++ i.verification_uri ++ dciPart2) ++ i.user_code ++
        (dciPart3 ++ toString i.expires_in ++ dciPart4) := by
    simp [deviceCodeInstructions, String.append_assoc]
  rw [h]; exact data_infix_mid _ _ _

/-- The device-code instructions embed the expiry in seconds. -/
theorem dci_contains_expiry (i : DeviceCodeInfo) :
    (toString i.expires_in).data <:+: (deviceCodeInstructions i).data := by
  have h : deviceCodeInstructions i =
      (dciPart1 ++ i.verification_uri ++ dciPart2 ++ i.user_code ++ dciPart3) ++
        toString i.expires_in ++ dciPart4 := by
    simp [deviceCodeInstructions, String.append_assoc]
  rw [h]; exact data_infix_mid _ _ _

/-- Timeout with the device-code callback having fired: the stage returns the
device-code dictionary and records the callback data in the state. -/
theorem acquireStage_timeout_callback (env : Env) (st : SvcState) (cid tid : String)
    (i : DeviceCodeInfo) (henv : env.acquireResult = AcquireResult.timeout)
    (hcb : env.callbackInfo = some i) :
    acquireStage env st (Credential.deviceCodeCred cid tid) =
      AcqOut.early (deviceCodeResult i) { st with device_code_info := some i } := by
  unfold acquireStage
  simp [henv, hcb]

/-- Claim C6 (confirmed).  For every call in which token acquisition exceeds
the wait ceiling (timeout) and the device-code callback has populated the
pending record with (verification_uri, user_code, expires_in) — whether the
call found a `DeviceCodeCredential` already cached or created it itself
(default mode, fresh service) — the call returns `success = false`,
`auth_required = true`, with exactly those three values as fields of the
result and embedded in the formatted step-by-step instructions, and the
credential handle is retained (not discarded) for the next call. -/
theorem c6_device_code_timeout (env : Env) (st : SvcState) (command method : String)
    (data : Option Json) (secretArg : Option String) (cid tid : String)
    (i : DeviceCodeInfo)
    (hready : st.credential = some (Credential.deviceCodeCred cid tid) ∨
      (st.credential = none ∧ ¬ st.auth_config.mode = "custom" ∧
       env.createFault = none ∧ cid = st.auth_config.client_id ∧
       tid = st.auth_config.tenant_id))
    (hcb : env.callbackInfo = some i)
    (henv : env.acquireResult = AcquireResult.timeout) :
    (execute_command env st command method data secretArg).result.success = false ∧
    (execute_command env st command method data secretArg).result.error =
      some "Device code authentication required" ∧
    (execute_command env st command method data secretArg).result.auth_required =
      some true ∧
    (execute_command env st command method data secretArg).result.verification_uri =
      some i.verification_uri ∧
    (execute_command env st command method data secretArg).result.user_code =
      some i.user_code ∧
    (execute_command env st command method data secretArg).result.expires_in =
      some i.expires_in ∧
    (∃ ins, (execute_command env st command method data secretArg).result.instructions =
        some ins ∧
      i.verification_uri.data <:+: ins.data ∧
      i.user_code.data <:+: ins.data ∧
      (toString i.expires_in).data <:+: ins.data) ∧
    (execute_command env st command method data secretArg).state.credential =
      some (Credential.deviceCodeCred cid tid) := by
  have hproceed : ∃ st' evs,
      credStep env
        (if strTruthy secretArg then { st with client_secret := secretArg } else st) =
        CredStepOut.proceed (Credential.deviceCodeCred cid tid) st' evs ∧
      st'.credential = some (Credential.deviceCodeCred cid tid) := by
    rcases hready with hc | ⟨hc, hmode, hcf, hcid, htid⟩
    · exact ⟨_, [],
        credStep_some _ _ _ (by rw [storeSecret_credential]; exact hc),
        by rw [storeSecret_credential]; exact hc⟩
    · subst hcid
      subst htid
      have h1 : ((if strTruthy secretArg then { st with client_secret := secretArg }
          else st) : SvcState).credential = none := by
        rw [storeSecret_credential]; exact hc
      have h2 : ¬ ((if strTruthy secretArg then { st with client_secret := secretArg }
          else st) : SvcState).auth_config.mode = "custom" := by
        rw [storeSecret_auth_config]; exact hmode
      have h3 := credStep_create_default env
        (if strTruthy secretArg then { st with client_secret := secretArg } else st)
        h1 h2 hcf
      rw [storeSecret_auth_config] at h3
      exact ⟨_, _, h3, rfl⟩
  obtain ⟨st', evs, hcs, hcred'⟩ := hproceed
  rw [execute_of_proceed env st command method data secretArg
    (Credential.deviceCodeCred cid tid) st' evs hcs]
  rw [acquireStage_timeout_callback env _ cid tid i henv hcb]
  dsimp only
  refine ⟨rfl, rfl, rfl, rfl, rfl, rfl,
    ⟨deviceCodeInstructions i, rfl, dci_contains_uri i, dci_contains_code i,
      dci_contains_expiry i⟩, ?_⟩
  exact hcred'

/-- Default-mode auth config used by the device-code scenarios. -/
def cfgDefault : AuthConfig :=
  { mode := "default", client_id := "14d82eec-204b-4c2f-b7e8-296a70dab67e"
    tenant_id := "common", auth_mode := "device_code"
    scopes := ["https://graph.microsoft.com/.default"] }

/-- Fresh default-mode service state: no credential handle yet, no secret. -/
def stFresh : SvcState :=
  { device_code_info := none, credential := none, client_secret := none
    auth_config := cfgDefault }

/-- The device-code record of the specification's test vector. -/
def dcSpec : DeviceCodeInfo :=
  { verification_uri := "https://x", user_code := "ABC-123", expires_in := 600 }

/-- Environment in which acquisition invokes the device-code callback with
the specification's test vector, then times out. -/
def envDeviceTimeout : Env :=
  { createFault := none, callbackInfo := some dcSpec
    acquireResult := AcquireResult.timeout, httpFault := none
    response := { status_code := 200, text := "", json := none } }

/-- Concrete instantiation of `c6_device_code_timeout` on the
specification's fresh-service test scenario: the call itself creates the
device-code credential, the callback fires with (uri "https://x",
code "ABC-123", 600 s), and acquisition then times out. -/
theorem c6_device_code_timeout_witness :
    (execute_command envDeviceTimeout stFresh "me" "GET" none none).result.success = false ∧
    (execute_command envDeviceTimeout stFresh "me" "GET" none none).result.error =
      some "Device code authentication required" ∧
    (execute_command envDeviceTimeout stFresh "me" "GET" none none).result.auth_required =
      some true ∧
    (execute_command envDeviceTimeout stFresh "me" "GET" none none).result.verification_uri =
      some dcSpec.verification_uri ∧
    (execute_command envDeviceTimeout stFresh "me" "GET" none none).result.user_code =
      some dcSpec.user_code ∧
    (execute_command envDeviceTimeout stFresh "me" "GET" none none).result.expires_in =
      some dcSpec.expires_in ∧
    (∃ ins, (execute_command envDeviceTimeout stFresh "me" "GET" none none).result.instructions =
        some ins ∧
      dcSpec.verification_uri.data <:+: ins.data ∧
      dcSpec.user_code.data <:+: ins.data ∧
      (toString dcSpec.expires_in).data <:+: ins.data) ∧
    (execute_command envDeviceTimeout stFresh "me" "GET" none none).state.credential =
      some (Credential.deviceCodeCred "14d82eec-204b-4c2f-b7e8-296a70dab67e" "common") :=
  c6_device_code_timeout envDeviceTimeout stFresh "me" "GET" none none
    "14d82eec-204b-4c2f-b7e8-296a70dab67e" "common" dcSpec
    (Or.inr ⟨rfl, by decide, rfl, rfl, rfl⟩) rfl rfl

/-! ### Claim C7: response normalization -/

/-- The conversion the top-level handler applies to the body's exception
channel: a raised exception becomes a failure dictionary with the exception
message (and nothing else, in particular no status code). -/
def exceptToResult (x : Except String CommandResult) : CommandResult :=
  match x with
  | Except.ok r => r
  | Except.error e => { success := false, error := some e }

/-- The result of the call is the body's result passed through the top-level
handler. -/
theorem pyCatch_result (x : Except String CommandResult × SvcState × List Event) :
    (pyCatch x).result = exceptToResult x.1 := by
  rcases x with ⟨ex, s, evs⟩; cases ex <;> rfl

/-- A supported verb reaches `sendRequest` with the upper-cased verb and the
JSON body exactly for POST/PUT/PATCH. -/
theorem dispatchStage_supported (env : Env) (command method : String)
    (data : Option Json)
    (hmem : pyUpper method ∈ (["GET", "POST", "PUT", "PATCH", "DELETE"] : List String)) :
    dispatchStage env command method data =
      sendRequest env
        ("https://graph.microsoft.com/v1.0/" ++ command.dropWhile (fun c => c == '/'))
        (pyUpper method)
        (if pyUpper method ∈ (["POST", "PUT", "PATCH"] : List String) then data
         else none) := by
  simp only [List.mem_cons, List.not_mem_nil, or_false] at hmem
  rcases hmem with h | h | h | h | h <;>
    rw [h] <;>
    simp [dispatchStage, h]

/-- When a credential exists, acquisition succeeds, the verb is supported and
the transport does not fault, the call's result is the normalized response
(with a normalization fault converted by the top-level handler). -/
theorem execute_result_of_normalize (env : Env) (st : SvcState)
    (command method : String) (data : Option Json) (secretArg : Option String)
    (c : Credential) (tok : String)
    (hcred : st.credential = some c)
    (htok : env.acquireResult = AcquireResult.success tok)
    (hfault : env.httpFault = none)
    (hm : pyUpper method ∈ (["GET", "POST", "PUT", "PATCH", "DELETE"] : List String)) :
    (execute_command env st command method data secretArg).result =
      exceptToResult (normalizeResponse env.response) := by
  have hcred1 : ((if strTruthy secretArg then { st with client_secret := secretArg }
      else st) : SvcState).credential = some c := by
    rw [storeSecret_credential]; exact hcred
  have hcs := credStep_some env
    (if strTruthy secretArg then { st with client_secret := secretArg } else st) c hcred1
  rw [execute_of_proceed env st command method data secretArg c _ [] hcs]
  obtain ⟨st', hacq, -, -, -⟩ := acquireStage_success_keeps env
    ({ (if strTruthy secretArg then { st with client_secret := secretArg } else st) with
        device_code_info := none }) c tok htok
  rw [hacq]
  dsimp only
  rw [pyCatch_result]
  rw [dispatchStage_supported env command method data hm]
  unfold sendRequest
  rw [hfault]

/-- A response whose error body carries a non-dict `error` member (valid
JSON: `\x7b"error": "oops"\x7d`). -/
def respBadBody : HttpResponse :=
  { status_code := 404, text := "\x7b\"error\": \"oops\"\x7d"
    json := some (Json.obj [("error", Json.str "oops")]) }

/-- Environment in which acquisition succeeds and the remote API returns
`respBadBody`. -/
def envBadBody : Env :=
  { createFault := none, callbackInfo := none
    acquireResult := AcquireResult.success "tok", httpFault := none
    response := respBadBody }

/-- Counterexample to claim C7 as stated.  For the 404 response with JSON
body `\x7b"error": "oops"\x7d` (the nested error.message field is absent), the
claim requires `error = "HTTP 404: <raw body text>"`, `error_details` set to
the parsed body, and `status_code = 404`.  The code instead evaluates
`error_data.get("error", \x7b\x7d).get("message", ...)` on the string value
"oops", which raises an `AttributeError` that escapes the normalization to
the top-level handler: the call returns the attribute-error message with no
status code and no error details. -/
theorem c7_counterexample :
    (execute_command envBadBody stWithCred "me" "GET" none none).result.success = false ∧
    (execute_command envBadBody stWithCred "me" "GET" none none).result.error =
      some (pyGetAttrError (Json.str "oops")) ∧
    (execute_command envBadBody stWithCred "me" "GET" none none).result.status_code =
      none ∧
    (execute_command envBadBody stWithCred "me" "GET" none none).result.error_details =
      none :=
  ⟨rfl, rfl, rfl, rfl⟩

/-- Response normalization as the amended claim C7 states it (spec-side
definition, written from the amended claim's words, to be compared with the
source-side `normalizeResponse`): statuses 200/201/202 succeed with the
parsed JSON body or the non-JSON fallback; 204 succeeds with the synthetic
no-content message; any other status fails with
`error = "HTTP <status>: <message>"` where the message is the nested
error.message when the parsed body is a dict whose `error` member (defaulting
to an empty dict when absent) is a dict, else the raw body text, carrying the
parsed body as `error_details`; but when the parsed body, or its `error`
member, is not a dict, the normalization faults and the call returns only the
attribute-error message, with no status code. -/
def normalizationSpec (r : HttpResponse) : CommandResult :=
  if r.status_code = 200 ∨ r.status_code = 201 ∨ r.status_code = 202 then
    match r.json with
    | some j => { success := true, data := some j, status_code := some r.status_code }
    | none =>
      { success := true
        data := some (Json.obj
          [("message", Json.str "Operation completed successfully"),
           ("response_text", Json.str r.text)])
        status_code := some r.status_code }
  else if r.status_code = 204 then
    { success := true
      data := some (Json.obj
        [("message", Json.str "Operation completed successfully (no content returned)")])
      status_code := some r.status_code }
  else
    match r.json with
    | none =>
      { success := false
        error := some ("HTTP " ++ toString r.status_code ++ ": " ++ r.text)
        status_code := some r.status_code }
    | some (Json.obj kvs) =>
      match kvs.lookup "error" with
      | none =>
        { success := false
          error := some ("HTTP " ++ toString r.status_code ++ ": " ++ r.text)
          status_code := some r.status_code
          error_details := some (Json.obj kvs) }
      | some (Json.obj kvs2) =>
        match kvs2.lookup "message" with
        | some mv =>
          { success := false
            error := some ("HTTP " ++ toString r.status_code ++ ": " ++ pyStr mv)
            status_code := some r.status_code
            error_details := some (Json.obj kvs) }
        | none =>
          { success := false
            error := some ("HTTP " ++ toString r.status_code ++ ": " ++ r.text)
            status_code := some r.status_code
            error_details := some (Json.obj kvs) }
      | some ev => { success := false, error := some (pyGetAttrError ev) }
    | some j => { success := false, error := some (pyGetAttrError j) }

/-- Claim C7 as amended (proved).  Under a reachable dispatch (credential
present, successful acquisition, a supported verb, no transport fault), the
call's result equals `normalizationSpec` of the response; and for every
response the source normalization (with its fault channel consumed by the
top-level handler) coincides with `normalizationSpec`. -/
theorem c7_normalization (env : Env) (st : SvcState)
    (command method : String) (data : Option Json) (secretArg : Option String)
    (c : Credential) (tok : String)
    (hcred : st.credential = some c)
    (htok : env.acquireResult = AcquireResult.success tok)
    (hfault : env.httpFault = none)
    (hm : pyUpper method ∈ (["GET", "POST", "PUT", "PATCH", "DELETE"] : List String)) :
    (execute_command env st command method data secretArg).result =
      normalizationSpec env.response ∧
    ∀ r, exceptToResult (normalizeResponse r) = normalizationSpec r := by
  have hall : ∀ r, exceptToResult (normalizeResponse r) = normalizationSpec r := by
    intro r
    unfold normalizeResponse normalizationSpec
    by_cases hIn : r.status_code ∈ ([200, 201, 202, 204] : List Nat)
    · by_cases h204 : r.status_code = 204
      · rw [if_pos hIn]
        rw [h204]
        have h3 : ¬(204 = 200 ∨ 204 = 201 ∨ 204 = 202) := by decide
        rw [if_neg h3, if_pos rfl]
        rfl
      · have h3 : r.status_code = 200 ∨ r.status_code = 201 ∨ r.status_code = 202 := by
          simp only [List.mem_cons, List.not_mem_nil, or_false] at hIn
          rcases hIn with h | h | h | h
          · exact Or.inl h
          · exact Or.inr (Or.inl h)
          · exact Or.inr (Or.inr h)
          · exact absurd h h204
        have h204b : (r.status_code == 204) = false := by
          simp [h204]
        rw [if_pos hIn, if_pos h3, h204b]
        cases hj : r.json <;> rfl
    · have h3 : ¬(r.status_code = 200 ∨ r.status_code = 201 ∨ r.status_code = 202) := by
        simp only [List.mem_cons, List.not_mem_nil, or_false] at hIn
        intro hc
        rcases hc with h | h | h
        · exact hIn (Or.inl h)
        · exact hIn (Or.inr (Or.inl h))
        · exact hIn (Or.inr (Or.inr (Or.inl h)))
      have h204 : ¬ r.status_code = 204 := by
        simp only [List.mem_cons, List.not_mem_nil, or_false] at hIn
        intro hc
        exact hIn (Or.inr (Or.inr (Or.inr hc)))
      rw [if_neg hIn, if_neg h3, if_neg h204]
      cases hj : r.json with
      | none => rfl
      | some j =>
        cases j with
        | obj kvs =>
          dsimp only [pyDictGet]
          cases hlk : kvs.lookup "error" with
          | none => rfl
          | some ev =>
            cases ev with
            | obj kvs2 =>
              dsimp only [Option.getD, pyDictGet]
              cases hlk2 : kvs2.lookup "message" with
              | none => rfl
              | some mv => rfl
            | null => rfl
            | bool b => rfl
            | num n => rfl
            | str s => rfl
            | arr xs => rfl
        | null => rfl
        | bool b => rfl
        | num n => rfl
        | str s => rfl
        | arr xs => rfl
  exact ⟨by
    rw [execute_result_of_normalize env st command method data secretArg c tok hcred htok
      hfault hm]
    exact hall env.response, hall⟩

/-- Environment in which acquisition succeeds and the remote API returns a
204 no-content response. -/
def env204 : Env :=
  { createFault := none, callbackInfo := none
    acquireResult := AcquireResult.success "tok", httpFault := none
    response := { status_code := 204, text := "", json := none } }

/-- Concrete instantiation of `c7_normalization` on the specification's
no-content scenario: DELETE on "users/1" answered with status 204. -/
theorem c7_normalization_witness :
    (execute_command env204 stWithCred "users/1" "DELETE" none none).result =
      normalizationSpec env204.response ∧
    ∀ r, exceptToResult (normalizeResponse r) = normalizationSpec r :=
  c7_normalization env204 stWithCred "users/1" "DELETE" none none credC "tok"
    rfl rfl rfl (by decide)

/-! ### Claim C8: verb dispatch -/

/-- The top-level handler, componentwise. -/
theorem pyCatch_eq (x : Except String CommandResult × SvcState × List Event) :
    pyCatch x = { result := exceptToResult x.1, state := x.2.1, events := x.2.2 } := by
  rcases x with ⟨ex, s, evs⟩; cases ex <;> rfl

/-- With an existing credential and a successful acquisition, the call is the
dispatch stage wrapped by the top-level handler, after the clear and token
events. -/
theorem execute_of_success (env : Env) (st : SvcState) (command method : String)
    (data : Option Json) (secretArg : Option String) (c : Credential) (tok : String)
    (hcred : st.credential = some c)
    (htok : env.acquireResult = AcquireResult.success tok) :
    ∃ st3, execute_command env st command method data secretArg =
      { result := exceptToResult (dispatchStage env command method data).1
        state := st3
        events := [Event.clearDC, Event.getToken c] ++
          (dispatchStage env command method data).2 } := by
  have hcred1 : ((if strTruthy secretArg then { st with client_secret := secretArg }
      else st) : SvcState).credential = some c := by
    rw [storeSecret_credential]; exact hcred
  have hcs := credStep_some env
    (if strTruthy secretArg then { st with client_secret := secretArg } else st) c hcred1
  rw [execute_of_proceed env st command method data secretArg c _ [] hcs]
  obtain ⟨st', hacq, -, -, -⟩ := acquireStage_success_keeps env
    ({ (if strTruthy secretArg then { st with client_secret := secretArg } else st) with
        device_code_info := none }) c tok htok
  rw [hacq]
  dsimp only
  exact ⟨st', by rw [pyCatch_eq]; simp⟩

/-- An unsupported verb short-circuits the dispatch stage: failure dictionary,
no event. -/
theorem dispatchStage_unsupported (env : Env) (command method : String)
    (data : Option Json)
    (h : pyUpper method ∉ (["GET", "POST", "PUT", "PATCH", "DELETE"] : List String)) :
    dispatchStage env command method data =
      (Except.ok { success := false, error := some ("Unsupported HTTP method: " ++ method) },
       []) := by
  have h1 : (pyUpper method == "GET") = false := by
    simp only [beq_eq_false_iff_ne, ne_eq]
    intro hc; exact h (by rw [hc]; simp)
  have h2 : (pyUpper method == "POST") = false := by
    simp only [beq_eq_false_iff_ne, ne_eq]
    intro hc; exact h (by rw [hc]; simp)
  have h3 : (pyUpper method == "PUT") = false := by
    simp only [beq_eq_false_iff_ne, ne_eq]
    intro hc; exact h (by rw [hc]; simp)
  have h4 : (pyUpper method == "PATCH") = false := by
    simp only [beq_eq_false_iff_ne, ne_eq]
    intro hc; exact h (by rw [hc]; simp)
  have h5 : (pyUpper method == "DELETE") = false := by
    simp only [beq_eq_false_iff_ne, ne_eq]
    intro hc; exact h (by rw [hc]; simp)
  simp only [dispatchStage, h1, h2, h3, h4, h5, Bool.false_eq_true, if_false]

/-- The dispatch-stage trace of one send. -/
theorem sendRequest_events (env : Env) (url verb : String) (body : Option Json) :
    (sendRequest env url verb body).2 = [Event.httpSend url verb body] := by
  unfold sendRequest
  cases env.httpFault <;> rfl

/-- Claim C8 (confirmed).  With a credential present and a successful token
acquisition: a method whose upper-cased form is not one of
GET/POST/PUT/PATCH/DELETE yields the failure dictionary
"Unsupported HTTP method: &lt;method&gt;" and no HTTP send is recorded; a
supported method records exactly one HTTP send, whose verb is the upper-cased
method (dispatch is case-insensitive) and whose JSON body is the request data
for POST/PUT/PATCH and absent for GET/DELETE. -/
theorem c8_verb_dispatch (env : Env) (st : SvcState) (command method : String)
    (data : Option Json) (secretArg : Option String) (c : Credential) (tok : String)
    (hcred : st.credential = some c)
    (htok : env.acquireResult = AcquireResult.success tok) :
    (pyUpper method ∉ (["GET", "POST", "PUT", "PATCH", "DELETE"] : List String) →
       (execute_command env st command method data secretArg).result =
         { success := false, error := some ("Unsupported HTTP method: " ++ method) } ∧
       (∀ u v b, Event.httpSend u v b ∉
         (execute_command env st command method data secretArg).events)) ∧
    (pyUpper method ∈ (["GET", "POST", "PUT", "PATCH", "DELETE"] : List String) →
       (∃ u, Event.httpSend u (pyUpper method)
           (if pyUpper method ∈ (["POST", "PUT", "PATCH"] : List String) then data
            else none) ∈
         (execute_command env st command method data secretArg).events) ∧
       (∀ u v b, Event.httpSend u v b ∈
           (execute_command env st command method data secretArg).events →
         v = pyUpper method ∧
         b = (if pyUpper method ∈ (["POST", "PUT", "PATCH"] : List String) then data
              else none))) := by
  obtain ⟨st3, hex⟩ :=
    execute_of_success env st command method data secretArg c tok hcred htok
  constructor
  · intro h
    rw [hex, dispatchStage_unsupported env command method data h]
    refine ⟨rfl, ?_⟩
    intro u v b hmem
    simp at hmem
  · intro h
    rw [hex, dispatchStage_supported env command method data h]
    rw [sendRequest_events]
    constructor
    · exact ⟨"https://graph.microsoft.com/v1.0/" ++ command.dropWhile (fun c => c == '/'),
        by simp⟩
    · intro u v b hmem
      simp only [List.cons_append, List.nil_append, List.mem_cons, List.not_mem_nil,
        or_false] at hmem
      rcases hmem with hc | hc | hc
      · exact Event.noConfusion hc
      · exact Event.noConfusion hc
      · injection hc with h1 h2 h3
        exact ⟨h2, by simpa using h3⟩

/-- Concrete instantiation of `c8_verb_dispatch` with the lower-case method
"delete": the send uses verb "DELETE" and carries no body. -/
theorem c8_verb_dispatch_witness :
    (pyUpper "delete" ∉ (["GET", "POST", "PUT", "PATCH", "DELETE"] : List String) →
       (execute_command env204 stWithCred "users/1" "delete" none none).result =
         { success := false, error := some ("Unsupported HTTP method: " ++ "delete") } ∧
       (∀ u v b, Event.httpSend u v b ∉
         (execute_command env204 stWithCred "users/1" "delete" none none).events)) ∧
    (pyUpper "delete" ∈ (["GET", "POST", "PUT", "PATCH", "DELETE"] : List String) →
       (∃ u, Event.httpSend u (pyUpper "delete")
           (if pyUpper "delete" ∈ (["POST", "PUT", "PATCH"] : List String) then none
            else none) ∈
         (execute_command env204 stWithCred "users/1" "delete" none none).events) ∧
       (∀ u v b, Event.httpSend u v b ∈
           (execute_command env204 stWithCred "users/1" "delete" none none).events →
         v = pyUpper "delete" ∧
         b = (if pyUpper "delete" ∈ (["POST", "PUT", "PATCH"] : List String) then none
              else none))) :=
  c8_verb_dispatch env204 stWithCred "users/1" "delete" none none credC "tok" rfl rfl

/-! ### Claim C10: secret override with an existing credential -/

/-- Claim C10 (confirmed).  If a credential handle already exists when
`execute_command` is called with a non-empty client-secret override: the
stored secret is updated to the override (and, the state being threaded into
future calls, remembered); the existing handle is not rebuilt (no
credential-creation event) and the call still requests the token from the old
handle; the handle is not discarded unless acquisition fails with an error
(on timeout or success it is retained, so the overriding secret takes effect
only after the handle is later discarded); and the override has no effect
beyond the stored secret: the call is indistinguishable from a call without
an override on a state whose secret was already the override. -/
theorem c10_override_keeps_credential (env : Env) (st : SvcState)
    (command method : String) (data : Option Json) (s : String) (c : Credential)
    (hcred : st.credential = some c)
    (hs : strTruthy (some s) = true) :
    (execute_command env st command method data (some s)).state.client_secret = some s ∧
    (∀ c2, Event.createCred c2 ∉
      (execute_command env st command method data (some s)).events) ∧
    Event.getToken c ∈ (execute_command env st command method data (some s)).events ∧
    ((env.acquireResult = AcquireResult.timeout ∨
      (∃ tok, env.acquireResult = AcquireResult.success tok)) →
      (execute_command env st command method data (some s)).state.credential = some c) ∧
    execute_command env st command method data (some s) =
      execute_command env { st with client_secret := some s } command method data none := by
  have heqv : execute_command env st command method data (some s) =
      execute_command env { st with client_secret := some s } command method data none := by
    unfold execute_command executeBody
    dsimp only
    rw [if_pos hs]
    rfl
  rw [heqv]
  have hcred1 : ({ st with client_secret := some s } : SvcState).credential = some c := hcred
  have hcs : credStep env ({ st with client_secret := some s } : SvcState) =
      CredStepOut.proceed c { st with client_secret := some s } [] :=
    credStep_some env _ c hcred1
  rw [execute_of_proceed env { st with client_secret := some s } command method data none c
    _ [] hcs]
  cases henv : env.acquireResult with
  | timeout =>
    obtain ⟨r, st3, hacq, hkeepc, hkeeps, -⟩ := acquireStage_timeout_keeps env
      ({ ({ st with client_secret := some s } : SvcState) with device_code_info := none })
      c henv
    rw [hacq]
    dsimp only
    refine ⟨?_, ?_, ?_, ?_, rfl⟩
    · rw [hkeeps]
    · intro c2 hmem; simp at hmem
    · simp
    · intro _; rw [hkeepc]; exact hcred1
  | authError msg =>
    obtain ⟨r, st3, hacq, hclear, hkeeps, -⟩ := acquireStage_authError_clears env
      ({ ({ st with client_secret := some s } : SvcState) with device_code_info := none })
      c msg henv
    rw [hacq]
    dsimp only
    refine ⟨?_, ?_, ?_, ?_, rfl⟩
    · rw [hkeeps]
    · intro c2 hmem; simp at hmem
    · simp
    · intro hc
      rcases hc with hc | ⟨tok, hc⟩ <;> exact AcquireResult.noConfusion hc
  | success tok =>
    obtain ⟨st3, hacq, hkeepc, hkeeps, -⟩ := acquireStage_success_keeps env
      ({ ({ st with client_secret := some s } : SvcState) with device_code_info := none })
      c tok henv
    rw [hacq]
    dsimp only
    rw [pyCatch_eq]
    dsimp only
    refine ⟨?_, ?_, ?_, ?_, rfl⟩
    · rw [hkeeps]
    · intro c2 hmem
      simp only [List.cons_append, List.nil_append, List.mem_cons] at hmem
      rcases hmem with hc | hc | hc
      · exact Event.noConfusion hc
      · exact Event.noConfusion hc
      · obtain ⟨u, v, b, he⟩ :=
          dispatchStage_events_httpSend env command method data (Event.createCred c2) hc
        exact Event.noConfusion he
    · simp
    · intro _; rw [hkeepc]; exact hcred1

/-- Concrete instantiation of `c10_override_keeps_credential`: an override on
a state already holding a handle and an older secret. -/
theorem c10_override_keeps_credential_witness :
    (execute_command envTimeout stWithCred "me" "GET" none (some "new-sec")).state.client_secret =
      some "new-sec" ∧
    (∀ c2, Event.createCred c2 ∉
      (execute_command envTimeout stWithCred "me" "GET" none (some "new-sec")).events) ∧
    Event.getToken credC ∈
      (execute_command envTimeout stWithCred "me" "GET" none (some "new-sec")).events ∧
    ((envTimeout.acquireResult = AcquireResult.timeout ∨
      (∃ tok, envTimeout.acquireResult = AcquireResult.success tok)) →
      (execute_command envTimeout stWithCred "me" "GET" none (some "new-sec")).state.credential =
        some credC) ∧
    execute_command envTimeout stWithCred "me" "GET" none (some "new-sec") =
      execute_command envTimeout { stWithCred with client_secret := some "new-sec" }
        "me" "GET" none none :=
  c10_override_keeps_credential envTimeout stWithCred "me" "GET" none "new-sec" credC
    rfl rfl

end GraphMcp
